import Mathlib

/-!
Verification development for `yamaha-musiccast.js` (Yamaha MusicCast NodeJS client).

The source is a single file exposing six subsystem HTTP clients
(`YamahaMusicCastSystem`, `...Zone`, `...Tuner`, `...NetworkUSB`, `...CD`,
`...Clock`), a UDP event receiver, and a facade class `YamahaMusicCast`
aggregating them.  This file shallowly embeds the data model and the
operations: JSON values as an inductive type, each HTTP endpoint wrapper as a
function from the HTTP outcome to the promise result, the facade and its UDP
receiver as a state record with explicit state-passing operations, and JS
exceptions as `Except`.
-/

/-- JSON values, as produced by the external JSON parser (`JSON.parse`) and by
axios's response-body parsing. -/
inductive Json where
  | null : Json
  | bool (b : Bool) : Json
  | num (n : Int) : Json
  | str (s : String) : Json
  | arr (elems : List Json) : Json
  | obj (fields : List (String × Json)) : Json

/-- JS property access `j.k` on a parsed JSON value: the field's value when `j`
is an object carrying the key, otherwise `undefined` (modelled as `none`). -/
def Json.get : Json → String → Option Json
  | .obj fields, k => fields.lookup k
  | _, _ => none

/-- JS strict equality `v === n` between a possibly-undefined JSON value and a
number literal: true exactly when `v` is a JSON number equal to `n`
(`undefined === 0` and `"0" === 0` are both false). -/
def jsEqNum : Option Json → Int → Bool
  | some (Json.num m), n => m == n
  | _, _ => false

/-- Transport-level faults raised by axios (never a parsed body). -/
inductive TransportFault where
  | timeout : TransportFault
  | connectionRefused : TransportFault
  | dnsFailure : TransportFault
  | other (msg : String) : TransportFault
deriving DecidableEq

/-- Outcome of one HTTP exchange: either a completed exchange with a parsed
JSON response body, or a transport-level fault. -/
inductive HttpOutcome where
  | ok (body : Json) : HttpOutcome
  | fault (e : TransportFault) : HttpOutcome

/-- A value a promise resolves with; `none` is JS `undefined` (the result of
projecting a missing field from the body). -/
abbrev JsValue := Option Json

/-- A value a promise rejects with: the full response body (device-reported
failure), the transport error object, or a locally constructed `Error`. -/
inductive RejectValue where
  | body (j : Json) : RejectValue
  | transport (e : TransportFault) : RejectValue
  | localError (msg : String) : RejectValue

/-- The settled state of an endpoint wrapper's returned promise. -/
inductive PromiseResult where
  | resolved (v : JsValue) : PromiseResult
  | rejected (v : RejectValue) : PromiseResult

/-- `true` exactly on rejected promises. -/
def PromiseResult.isRejected : PromiseResult → Bool
  | .rejected _ => true
  | .resolved _ => false

/-- HTTP method of an issued request. -/
inductive HttpMethod where
  | get : HttpMethod
  | post : HttpMethod
deriving DecidableEq

/-- An HTTP request an endpoint wrapper hands to its axios instance. -/
structure HttpRequest where
  method : HttpMethod
  path : String
  params : List (String × Json)
  body : Option Json

/-- Observable behaviour of one endpoint-wrapper call: either the promise is
rejected locally before any request is issued, or a request is issued and the
settled result is a function of the HTTP outcome. -/
inductive CallBehavior where
  | localReject (v : RejectValue) : CallBehavior
  | networkCall (req : HttpRequest) (handle : HttpOutcome → PromiseResult) : CallBehavior

/-- `true` exactly when the call issues a network request. -/
def CallBehavior.issuesNetworkCall : CallBehavior → Bool
  | .localReject _ => false
  | .networkCall _ _ => true

/-- The response-envelope decoding shared (textually repeated) by every
endpoint wrapper: on a completed exchange, `response_code === 0` resolves with
the projection of the body chosen by that endpoint, any other body rejects
with the full body, and a transport fault rejects with the error object. -/
def decodeEnvelope (project : Json → JsValue) : HttpOutcome → PromiseResult
  | .ok response =>
      let res := response
      if jsEqNum (res.get "response_code") 0 then
        .resolved (project res)
      else
        .rejected (.body res)
  | .fault error => .rejected (.transport error)

/-- The axios instance configuration each subsystem client creates in its
`setup`: base URL, 15-second timeout, and the two custom headers
`X-AppName` / `X-AppPort`. -/
structure AxiosConfig where
  baseURL : String
  timeoutMs : Nat
  appName : String
  appPort : Nat

/-- `YamahaMusicCastSystem` instance state: `#ip`, `#eventPort`,
`#axiosInstance`. -/
structure YamahaMusicCastSystem where
  ip : String
  eventPort : Nat
  axiosInstance : AxiosConfig

/-- `YamahaMusicCastSystem.setup` (lines 46-60): stores ip and event port and
creates the axios instance with base URL
`http://<ip>:80/YamahaExtendedControl/v1/system`. -/
def YamahaMusicCastSystem.setup (ip : String) (eventPort : Nat) : YamahaMusicCastSystem :=
  { ip := ip
    eventPort := eventPort
    axiosInstance :=
      { baseURL := "http://" ++ ip ++ ":80/YamahaExtendedControl/v1/system"
        timeoutMs := 15 * 1000
        appName := "ERDesigns/1.0"
        appPort := eventPort } }

/-- `YamahaMusicCastSystem.getDeviceInfo` (lines 68-84): GET `/getDeviceInfo`;
`response_code === 0` resolves the whole body. -/
def YamahaMusicCastSystem.getDeviceInfo : HttpOutcome → PromiseResult :=
  decodeEnvelope (fun res => some res)

/-- `YamahaMusicCastSystem.getFeatures` (lines 92-108): GET `/getFeatures`;
resolves the whole body. -/
def YamahaMusicCastSystem.getFeatures : HttpOutcome → PromiseResult :=
  decodeEnvelope (fun res => some res)

/-- `YamahaMusicCastSystem.setNetworkName` (lines 261-280): rejects locally
with `new Error(...)` when `name.length > 32`, before the axios POST is
issued; otherwise POSTs `/setNetworkName` with body `{ name }` and applies the
envelope decoding, resolving the whole body. -/
def YamahaMusicCastSystem.setNetworkName (name : String) : CallBehavior :=
  if name.length > 32 then
    .localReject (.localError "The network name must not be longer than 32 characters.")
  else
    .networkCall
      { method := .post
        path := "/setNetworkName"
        params := []
        body := some (.obj [("name", .str name)]) }
      (decodeEnvelope (fun res => some res))

/-- `YamahaMusicCastSystem.getMacAddressFilter` (lines 313-329): GET
`/getMacAddressFilter`; `response_code === 0` resolves
`res.mac_address_filter`. -/
def YamahaMusicCastSystem.getMacAddressFilter : HttpOutcome → PromiseResult :=
  decodeEnvelope (fun res => res.get "mac_address_filter")

/-- `YamahaMusicCastSystem.getNetworkStandby` (lines 385-401): GET
`/getNetworkStandby`; `response_code === 0` resolves `res.network_standby`. -/
def YamahaMusicCastSystem.getNetworkStandby : HttpOutcome → PromiseResult :=
  decodeEnvelope (fun res => res.get "network_standby")

/-- `YamahaMusicCastZone` instance state. -/
structure YamahaMusicCastZone where
  ip : String
  eventPort : Nat
  axiosInstance : AxiosConfig

/-- `YamahaMusicCastZone.setup` (lines 940-954): base URL
`http://<ip>:80/YamahaExtendedControl/v1` (no subsystem suffix; zone names are
path segments per call). -/
def YamahaMusicCastZone.setup (ip : String) (eventPort : Nat) : YamahaMusicCastZone :=
  { ip := ip
    eventPort := eventPort
    axiosInstance :=
      { baseURL := "http://" ++ ip ++ ":80/YamahaExtendedControl/v1"
        timeoutMs := 15 * 1000
        appName := "ERDesigns/1.0"
        appPort := eventPort } }

/-- `YamahaMusicCastZone.getStatus` (lines 962-978): GET `<zone>/getStatus`;
resolves the whole body. -/
def YamahaMusicCastZone.getStatus (_zone : String) : HttpOutcome → PromiseResult :=
  decodeEnvelope (fun res => some res)

/-- `YamahaMusicCastTuner` instance state. -/
structure YamahaMusicCastTuner where
  ip : String
  eventPort : Nat
  axiosInstance : AxiosConfig

/-- `YamahaMusicCastTuner.setup`: base URL suffix `/tuner` (line 1567). -/
def YamahaMusicCastTuner.setup (ip : String) (eventPort : Nat) : YamahaMusicCastTuner :=
  { ip := ip
    eventPort := eventPort
    axiosInstance :=
      { baseURL := "http://" ++ ip ++ ":80/YamahaExtendedControl/v1/tuner"
        timeoutMs := 15 * 1000
        appName := "ERDesigns/1.0"
        appPort := eventPort } }

/-- `YamahaMusicCastTuner.getPlayInfo` (lines 1606-1622): GET `/getPlayInfo`;
resolves the whole body. -/
def YamahaMusicCastTuner.getPlayInfo : HttpOutcome → PromiseResult :=
  decodeEnvelope (fun res => some res)

/-- `YamahaMusicCastNetworkUSB` instance state. -/
structure YamahaMusicCastNetworkUSB where
  ip : String
  eventPort : Nat
  axiosInstance : AxiosConfig

/-- `YamahaMusicCastNetworkUSB.setup`: base URL suffix `/netusb` (line 1995). -/
def YamahaMusicCastNetworkUSB.setup (ip : String) (eventPort : Nat) : YamahaMusicCastNetworkUSB :=
  { ip := ip
    eventPort := eventPort
    axiosInstance :=
      { baseURL := "http://" ++ ip ++ ":80/YamahaExtendedControl/v1/netusb"
        timeoutMs := 15 * 1000
        appName := "ERDesigns/1.0"
        appPort := eventPort } }

/-- `YamahaMusicCastNetworkUSB.getPlayInfo` (lines 2037-2053): GET
`/getPlayInfo`; resolves the whole body. -/
def YamahaMusicCastNetworkUSB.getPlayInfo : HttpOutcome → PromiseResult :=
  decodeEnvelope (fun res => some res)

/-- `YamahaMusicCastCD` instance state. -/
structure YamahaMusicCastCD where
  ip : String
  eventPort : Nat
  axiosInstance : AxiosConfig

/-- `YamahaMusicCastCD.setup`: base URL suffix `/cd` (line 2675). -/
def YamahaMusicCastCD.setup (ip : String) (eventPort : Nat) : YamahaMusicCastCD :=
  { ip := ip
    eventPort := eventPort
    axiosInstance :=
      { baseURL := "http://" ++ ip ++ ":80/YamahaExtendedControl/v1/cd"
        timeoutMs := 15 * 1000
        appName := "ERDesigns/1.0"
        appPort := eventPort } }

/-- `YamahaMusicCastCD.getPlayInfo` (lines 2690-2706): GET `/getPlayInfo`;
resolves the whole body. -/
def YamahaMusicCastCD.getPlayInfo : HttpOutcome → PromiseResult :=
  decodeEnvelope (fun res => some res)

/-- `YamahaMusicCastClock` instance state. -/
structure YamahaMusicCastClock where
  ip : String
  eventPort : Nat
  axiosInstance : AxiosConfig

/-- `YamahaMusicCastClock.setup`: base URL suffix `/clock` (line 2846). -/
def YamahaMusicCastClock.setup (ip : String) (eventPort : Nat) : YamahaMusicCastClock :=
  { ip := ip
    eventPort := eventPort
    axiosInstance :=
      { baseURL := "http://" ++ ip ++ ":80/YamahaExtendedControl/v1/clock"
        timeoutMs := 15 * 1000
        appName := "ERDesigns/1.0"
        appPort := eventPort } }

/-- `YamahaMusicCastClock.getSettings` (lines 2861-2877): GET `/getSettings`;
resolves the whole body. -/
def YamahaMusicCastClock.getSettings : HttpOutcome → PromiseResult :=
  decodeEnvelope (fun res => some res)

/-- JS exceptions thrown synchronously by the modelled operations. -/
inductive JsError where
  | referenceError (msg : String) : JsError
  | socketNotRunning : JsError
  | typeError (msg : String) : JsError
deriving DecidableEq

/-- State of one `dgram` UDP socket created by `setupEventReceiver`:
whether it has been closed, the port it was bound to (if bound), and whether
the error/message/listening handlers were attached. -/
structure UdpSocket where
  closed : Bool
  boundPort : Option Nat
  handlersWired : Bool
deriving DecidableEq

/-- `dgram` socket `close()`: closing an already-closed socket throws
(`ERR_SOCKET_DGRAM_NOT_RUNNING`); otherwise the socket transitions to
closed. -/
def UdpSocket.close (s : UdpSocket) : Except JsError UdpSocket :=
  if s.closed then .error .socketNotRunning
  else .ok { s with closed := true }

/-- The socket produced inside `setupEventReceiver` (lines 3054-3076):
`dgram.createSocket('udp4')`, then the `error`/`message`/`listening` handlers
are attached, then `bind(eventPort)` is issued. -/
def freshSocketWiredAndBound (eventPort : Nat) : UdpSocket :=
  { closed := false, boundPort := some eventPort, handlersWired := true }

/-- Sender information (`rinfo`) accompanying an inbound UDP datagram. -/
structure RemoteInfo where
  address : String
  port : Nat
deriving DecidableEq

/-- Socket-level faults the UDP socket can raise asynchronously. -/
inductive SocketFault where
  | addressInUse : SocketFault
  | permissionDenied : SocketFault
  | other (msg : String) : SocketFault
deriving DecidableEq

/-- Events the facade (an `EventEmitter`) emits to its subscribers. -/
inductive FacadeEvent where
  | message (rinfo : RemoteInfo) (payload : Json) : FacadeEvent
  | error (e : SocketFault) : FacadeEvent
  | listening (address : String) (port : Nat) : FacadeEvent

/-- `YamahaMusicCast` facade instance state: `#ip`, `#eventPort`, `#server`,
and the six subsystem clients. -/
structure YamahaMusicCast where
  ip : String
  eventPort : Nat
  server : Option UdpSocket
  system : YamahaMusicCastSystem
  zone : YamahaMusicCastZone
  tuner : YamahaMusicCastTuner
  netusb : YamahaMusicCastNetworkUSB
  cd : YamahaMusicCastCD
  clock : YamahaMusicCastClock

/-- `YamahaMusicCast.setupEventReceiver` (lines 3048-3077): if `#server` is
non-null it is closed (the `close()` call is not wrapped; a close error
propagates) and the reference nulled; then a new udp4 socket is created, its
error/message/listening handlers are attached, and it is bound to
`eventPort`.  Returns the prior socket's final state (if one existed) together
with the updated facade state. -/
def YamahaMusicCast.setupEventReceiver (self : YamahaMusicCast) (eventPort : Nat) :
    Except JsError (Option UdpSocket × YamahaMusicCast) :=
  match self.server with
  | some s =>
      match s.close with
      | .error e => .error e
      | .ok sClosed =>
          .ok (some sClosed, { self with server := some (freshSocketWiredAndBound eventPort) })
  | none =>
      .ok (none, { self with server := some (freshSocketWiredAndBound eventPort) })

/-- The `error` handler attached in `setupEventReceiver` (lines 3058-3061):
`this.emit('error', error); this.#server.close();` — the fault is re-emitted
to subscribers, then the socket is closed; the `#server` reference is kept
(not nulled) and no rebind is attempted.  Returns the emitted events and the
updated facade state. -/
def YamahaMusicCast.onSocketError (self : YamahaMusicCast) (error : SocketFault) :
    Except JsError (List FacadeEvent × YamahaMusicCast) :=
  match self.server with
  | some s =>
      match s.close with
      | .error e => .error e
      | .ok sClosed => .ok ([.error error], { self with server := some sClosed })
  | none => .error (.typeError "Cannot read properties of null")

/-- JS `SyntaxError` thrown by `JSON.parse` on malformed input. -/
inductive ParseError where
  | syntaxError : ParseError
deriving DecidableEq

/-- The `message` handler attached in `setupEventReceiver` (lines 3064-3067):
`const json = JSON.parse(msg.toString()); this.emit('message', rinfo, json);`
— the datagram text is parsed by the external JSON parser `parse`; on success
a `message` event carrying the sender info and the parsed value is emitted; a
parse exception is not caught and propagates. -/
def YamahaMusicCast.onMessage (parse : String → Except ParseError Json)
    (msg : String) (rinfo : RemoteInfo) : Except ParseError (List FacadeEvent) :=
  match parse msg with
  | .error e => .error e
  | .ok json => .ok [.message rinfo json]

/-- `YamahaMusicCast.setup` (lines 3086-3105) run on a freshly constructed
instance (`#server` initially null): stores ip and event port, sets up the
event receiver (creating, wiring and binding a fresh socket), and constructs
the six subsystem clients, each pointed at `ip` with `eventPort`. -/
def YamahaMusicCast.setup (ip : String) (eventPort : Nat) : YamahaMusicCast :=
  { ip := ip
    eventPort := eventPort
    server := some (freshSocketWiredAndBound eventPort)
    system := YamahaMusicCastSystem.setup ip eventPort
    zone := YamahaMusicCastZone.setup ip eventPort
    tuner := YamahaMusicCastTuner.setup ip eventPort
    netusb := YamahaMusicCastNetworkUSB.setup ip eventPort
    cd := YamahaMusicCastCD.setup ip eventPort
    clock := YamahaMusicCastClock.setup ip eventPort }

/-- The defaulted `eventPort` parameter of the facade constructor
(line 3038: `constructor(ipAddress, eventPort = 50001)`). -/
def YamahaMusicCast.defaultEventPort : Nat := 50001

/-- The `ip` setter (lines 3122-3124): `this.#ip = ip;` — only the stored
field changes. -/
def YamahaMusicCast.setIp (self : YamahaMusicCast) (ip : String) : YamahaMusicCast :=
  { self with ip := ip }

/-- The `eventPort` setter (lines 3141-3143): `this.#eventPort = eventPort;`
— only the stored field changes. -/
def YamahaMusicCast.setEventPort (self : YamahaMusicCast) (eventPort : Nat) : YamahaMusicCast :=
  { self with eventPort := eventPort }

/-- The identifiers bound at module scope of `yamaha-musiccast.js`: the two
`require` bindings (lines 1-2) and the seven class declarations.  No binding
for `EventEmitter` exists (`require('events')` is absent). -/
def moduleScopeBindings : List String :=
  ["axios", "dgram", "YamahaMusicCastSystem", "YamahaMusicCastZone",
   "YamahaMusicCastTuner", "YamahaMusicCastNetworkUSB", "YamahaMusicCastCD",
   "YamahaMusicCastClock", "YamahaMusicCast"]

/-- The superclass identifier of
`class YamahaMusicCast extends EventEmitter` (line 3019). -/
def facadeSuperclassIdent : String := "EventEmitter"

/-- Whether the facade constructor body (lines 3038-3040) contains a
`super(...)` call before `this` is used: it does not — the body is exactly
`this.setup(ipAddress, eventPort);`. -/
def facadeConstructorCallsSuper : Bool := false

/-- JS evaluation of `new YamahaMusicCast(ip, eventPort)`: the class
declaration's `extends` expression is resolved in module scope, where
`EventEmitter` is unbound, so evaluation throws
`ReferenceError: EventEmitter is not defined`; were the superclass in scope,
the derived-class constructor accesses `this` before any `super()` call,
which also throws a ReferenceError.  Only if both were fixed would
construction produce the `setup` state. -/
def constructFacade (ip : String) (eventPort : Nat) : Except JsError YamahaMusicCast :=
  if moduleScopeBindings.contains facadeSuperclassIdent then
    if facadeConstructorCallsSuper then
      .ok (YamahaMusicCast.setup ip eventPort)
    else
      .error (.referenceError
        "Must call super constructor in derived class before accessing this")
  else
    .error (.referenceError "EventEmitter is not defined")

/-- The double-quote character. -/
def quoteChar : Char := Char.ofNat 34

/-- The backslash character. -/
def backslashChar : Char := Char.ofNat 92

/-- The opening-brace character. -/
def openBraceChar : Char := Char.ofNat 123

/-- The closing-brace character. -/
def closeBraceChar : Char := Char.ofNat 125

/-- Drop leading whitespace. -/
def skipWs : List Char → List Char
  | [] => []
  | c :: cs => if c.isWhitespace then skipWs cs else c :: cs

/-- Consume the characters of a JSON string up to the closing quote
(escape sequences are outside the fragment handled here). -/
def takeStringChars : List Char → Option (List Char × List Char)
  | [] => none
  | c :: cs =>
      if c = quoteChar then some ([], cs)
      else if c = backslashChar then none
      else
        match takeStringChars cs with
        | some (acc, rest) => some (c :: acc, rest)
        | none => none

/-- Split off a maximal run of leading decimal digits. -/
def takeDigits : List Char → List Char × List Char
  | [] => ([], [])
  | c :: cs =>
      if c.isDigit then
        let (ds, rest) := takeDigits cs
        (c :: ds, rest)
      else ([], c :: cs)

/-- Numeric value of a run of decimal digits. -/
def digitsToNat (ds : List Char) : Nat :=
  ds.foldl (fun n c => 10 * n + (c.toNat - 48)) 0

mutual

/-- Fuel-indexed parser for one JSON value, returning it with the unconsumed
remainder. -/
def parseJsonValue : Nat → List Char → Option (Json × List Char)
  | 0, _ => none
  | fuel + 1, s =>
    match skipWs s with
    | [] => none
    | c :: cs =>
      if c = quoteChar then
        match takeStringChars cs with
        | some (chars, rest) => some (.str (String.mk chars), rest)
        | none => none
      else if c = openBraceChar then
        parseJsonMembers fuel (skipWs cs) []
      else if c = '[' then
        parseJsonElements fuel (skipWs cs) []
      else if c = 't' then
        match cs with
        | 'r' :: 'u' :: 'e' :: rest => some (.bool true, rest)
        | _ => none
      else if c = 'f' then
        match cs with
        | 'a' :: 'l' :: 's' :: 'e' :: rest => some (.bool false, rest)
        | _ => none
      else if c = 'n' then
        match cs with
        | 'u' :: 'l' :: 'l' :: rest => some (.null, rest)
        | _ => none
      else if c = '-' then
        match takeDigits cs with
        | ([], _) => none
        | (ds, rest) => some (.num (-(digitsToNat ds : Int)), rest)
      else if c.isDigit then
        match takeDigits (c :: cs) with
        | (ds, rest) => some (.num (digitsToNat ds), rest)
      else none

/-- Fuel-indexed parser for the members of a JSON object after the opening
brace (leading whitespace already dropped). -/
def parseJsonMembers : Nat → List Char → List (String × Json) →
    Option (Json × List Char)
  | 0, _, _ => none
  | fuel + 1, s, acc =>
    match s with
    | [] => none
    | c :: cs =>
      if c = closeBraceChar then
        if acc.isEmpty then some (.obj [], cs) else none
      else if c = quoteChar then
        match takeStringChars cs with
        | some (key, rest) =>
          match skipWs rest with
          | c2 :: cs2 =>
            if c2 = ':' then
              match parseJsonValue fuel cs2 with
              | some (v, rest2) =>
                match skipWs rest2 with
                | c3 :: cs3 =>
                  if c3 = ',' then
                    parseJsonMembers fuel (skipWs cs3) (acc ++ [(String.mk key, v)])
                  else if c3 = closeBraceChar then
                    some (.obj (acc ++ [(String.mk key, v)]), cs3)
                  else none
                | [] => none
              | none => none
            else none
          | [] => none
        | none => none
      else none

/-- Fuel-indexed parser for the elements of a JSON array after the opening
bracket (leading whitespace already dropped). -/
def parseJsonElements : Nat → List Char → List Json → Option (Json × List Char)
  | 0, _, _ => none
  | fuel + 1, s, acc =>
    match s with
    | [] => none
    | c :: cs =>
      if c = ']' then
        if acc.isEmpty then some (.arr [], cs) else none
      else
        match parseJsonValue fuel (c :: cs) with
        | some (v, rest) =>
          match skipWs rest with
          | c2 :: cs2 =>
            if c2 = ',' then parseJsonElements fuel (skipWs cs2) (acc ++ [v])
            else if c2 = ']' then some (.arr (acc ++ [v]), cs2)
            else none
          | [] => none
        | none => none

end

/-- A concrete JSON parser for the fragment needed by the examples below;
it stands in for the external `JSON.parse` collaborator when the theorems
quantifying over an arbitrary parser are instantiated.  Input that is not a
single JSON document throws `SyntaxError`. -/
def jsonParse (s : String) : Except ParseError Json :=
  match parseJsonValue (s.length + 2) s.data with
  | some (j, rest) => if (skipWs rest).isEmpty then .ok j else .error .syntaxError
  | none => .error .syntaxError

/-- A concrete successful response body used to instantiate the envelope
theorems. -/
def exampleBody : Json :=
  .obj [("response_code", .num 0),
        ("mac_address_filter", .obj [("filter", .bool false)]),
        ("network_standby", .str "on")]

/-- A concrete device-failure response body (`response_code` 3). -/
def exampleErrorBody : Json := .obj [("response_code", .num 3)]

/-- A concrete facade state as produced by `setup` on `192.168.1.100` with the
default event port. -/
def exampleFacade : YamahaMusicCast := YamahaMusicCast.setup "192.168.1.100" 50001

/-- Concrete sender information for a UDP datagram example. -/
def exampleRinfo : RemoteInfo := { address := "192.168.1.100", port := 41100 }

/-- C1: the claim states that constructing `YamahaMusicCast` succeeds for
every IP and event port, yielding a bound event receiver and six clients.  In
fact `EventEmitter` is unbound at module scope (only `axios` and `dgram` are
required), so evaluating the class/constructor throws
`ReferenceError: EventEmitter is not defined`; even with it in scope, the
constructor uses `this` without calling `super()`.  This theorem evaluates
the model at a concrete failing input. -/
theorem constructFacade_throws_reference_error :
    moduleScopeBindings.contains facadeSuperclassIdent = false ∧
    constructFacade "192.168.1.100" 50001 =
      .error (.referenceError "EventEmitter is not defined") := by
  exact ⟨by decide, rfl⟩

/-- C2: for the embedded endpoint operations (covering all six subsystem
clients and every resolve shape occurring in the source), a completed
exchange whose body has `response_code === 0` resolves the promise, with the
whole body except for the sub-field endpoints (`getMacAddressFilter` resolves
`mac_address_filter`, `getNetworkStandby` resolves `network_standby`). -/
theorem envelope_success_resolves_documented_shape (body : Json) (zone : String)
    (h : jsEqNum (body.get "response_code") 0 = true) :
    YamahaMusicCastSystem.getDeviceInfo (.ok body) = .resolved (some body) ∧
    YamahaMusicCastSystem.getFeatures (.ok body) = .resolved (some body) ∧
    YamahaMusicCastSystem.getMacAddressFilter (.ok body) =
      .resolved (body.get "mac_address_filter") ∧
    YamahaMusicCastSystem.getNetworkStandby (.ok body) =
      .resolved (body.get "network_standby") ∧
    YamahaMusicCastZone.getStatus zone (.ok body) = .resolved (some body) ∧
    YamahaMusicCastTuner.getPlayInfo (.ok body) = .resolved (some body) ∧
    YamahaMusicCastNetworkUSB.getPlayInfo (.ok body) = .resolved (some body) ∧
    YamahaMusicCastCD.getPlayInfo (.ok body) = .resolved (some body) ∧
    YamahaMusicCastClock.getSettings (.ok body) = .resolved (some body) := by
  simp [YamahaMusicCastSystem.getDeviceInfo, YamahaMusicCastSystem.getFeatures,
    YamahaMusicCastSystem.getMacAddressFilter, YamahaMusicCastSystem.getNetworkStandby,
    YamahaMusicCastZone.getStatus, YamahaMusicCastTuner.getPlayInfo,
    YamahaMusicCastNetworkUSB.getPlayInfo, YamahaMusicCastCD.getPlayInfo,
    YamahaMusicCastClock.getSettings, decodeEnvelope, h]

/-- Witness for C2 at the concrete body with `response_code` 0. -/
theorem envelope_success_resolves_documented_shape_witness :
    jsEqNum (exampleBody.get "response_code") 0 = true ∧
    (YamahaMusicCastSystem.getDeviceInfo (.ok exampleBody) = .resolved (some exampleBody) ∧
     YamahaMusicCastSystem.getFeatures (.ok exampleBody) = .resolved (some exampleBody) ∧
     YamahaMusicCastSystem.getMacAddressFilter (.ok exampleBody) =
       .resolved (exampleBody.get "mac_address_filter") ∧
     YamahaMusicCastSystem.getNetworkStandby (.ok exampleBody) =
       .resolved (exampleBody.get "network_standby") ∧
     YamahaMusicCastZone.getStatus "Main_Zone" (.ok exampleBody) = .resolved (some exampleBody) ∧
     YamahaMusicCastTuner.getPlayInfo (.ok exampleBody) = .resolved (some exampleBody) ∧
     YamahaMusicCastNetworkUSB.getPlayInfo (.ok exampleBody) = .resolved (some exampleBody) ∧
     YamahaMusicCastCD.getPlayInfo (.ok exampleBody) = .resolved (some exampleBody) ∧
     YamahaMusicCastClock.getSettings (.ok exampleBody) = .resolved (some exampleBody)) :=
  ⟨rfl, envelope_success_resolves_documented_shape exampleBody "Main_Zone" rfl⟩

/-- C3: for the embedded endpoint operations, the promise rejects exactly
when the body's `response_code` is nonzero (rejecting with the full body) or
a transport fault occurs (rejecting with the transport error object, never a
body); the final conjunct states the exactness as an iff over all
outcomes. -/
theorem envelope_rejects_iff_nonzero_or_transport (body : Json) (e : TransportFault)
    (zone : String) (h : jsEqNum (body.get "response_code") 0 = false) :
    YamahaMusicCastSystem.getDeviceInfo (.ok body) = .rejected (.body body) ∧
    YamahaMusicCastSystem.getMacAddressFilter (.ok body) = .rejected (.body body) ∧
    YamahaMusicCastZone.getStatus zone (.ok body) = .rejected (.body body) ∧
    YamahaMusicCastSystem.getDeviceInfo (.fault e) = .rejected (.transport e) ∧
    YamahaMusicCastZone.getStatus zone (.fault e) = .rejected (.transport e) ∧
    (∀ outcome : HttpOutcome,
      (YamahaMusicCastSystem.getDeviceInfo outcome).isRejected = true ↔
        ((∃ b, outcome = .ok b ∧ jsEqNum (b.get "response_code") 0 = false) ∨
         (∃ e2, outcome = .fault e2))) := by
  refine ⟨?_, ?_, ?_, rfl, rfl, ?_⟩
  · simp [YamahaMusicCastSystem.getDeviceInfo, decodeEnvelope, h]
  · simp [YamahaMusicCastSystem.getMacAddressFilter, decodeEnvelope, h]
  · simp [YamahaMusicCastZone.getStatus, decodeEnvelope, h]
  · intro outcome
    cases outcome with
    | ok b =>
        by_cases hb : jsEqNum (b.get "response_code") 0 = true
        · simp [YamahaMusicCastSystem.getDeviceInfo, decodeEnvelope, hb,
            PromiseResult.isRejected]
        · simp only [Bool.not_eq_true] at hb
          simp [YamahaMusicCastSystem.getDeviceInfo, decodeEnvelope, hb,
            PromiseResult.isRejected]
    | fault e2 =>
        simp [YamahaMusicCastSystem.getDeviceInfo, decodeEnvelope,
          PromiseResult.isRejected]

/-- Witness for C3 at the concrete body with `response_code` 3 and a
timeout fault. -/
theorem envelope_rejects_iff_nonzero_or_transport_witness :
    jsEqNum (exampleErrorBody.get "response_code") 0 = false ∧
    (YamahaMusicCastSystem.getDeviceInfo (.ok exampleErrorBody) =
       .rejected (.body exampleErrorBody) ∧
     YamahaMusicCastSystem.getMacAddressFilter (.ok exampleErrorBody) =
       .rejected (.body exampleErrorBody) ∧
     YamahaMusicCastZone.getStatus "Main_Zone" (.ok exampleErrorBody) =
       .rejected (.body exampleErrorBody) ∧
     YamahaMusicCastSystem.getDeviceInfo (.fault .timeout) =
       .rejected (.transport .timeout) ∧
     YamahaMusicCastZone.getStatus "Main_Zone" (.fault .timeout) =
       .rejected (.transport .timeout) ∧
     (∀ outcome : HttpOutcome,
       (YamahaMusicCastSystem.getDeviceInfo outcome).isRejected = true ↔
         ((∃ b, outcome = .ok b ∧ jsEqNum (b.get "response_code") 0 = false) ∨
          (∃ e2, outcome = .fault e2)))) :=
  ⟨rfl, envelope_rejects_iff_nonzero_or_transport exampleErrorBody .timeout "Main_Zone" rfl⟩

/-- C4: `setNetworkName` with a 33-character name rejects locally with a
local `Error` and issues no network request; with a 32-character name the
network call is issued. -/
theorem setNetworkName_length_validation (name33 name32 : String)
    (h33 : name33.length = 33) (h32 : name32.length = 32) :
    YamahaMusicCastSystem.setNetworkName name33 =
      .localReject
        (.localError "The network name must not be longer than 32 characters.") ∧
    (YamahaMusicCastSystem.setNetworkName name33).issuesNetworkCall = false ∧
    (YamahaMusicCastSystem.setNetworkName name32).issuesNetworkCall = true := by
  simp [YamahaMusicCastSystem.setNetworkName, h33, h32,
    CallBehavior.issuesNetworkCall]

/-- Witness for C4 at concrete 33- and 32-character names. -/
theorem setNetworkName_length_validation_witness :
    ("aaaaaaaaaaaaaaaaaaaaaaaaaaaaaaaaa" : String).length = 33 ∧
    ("aaaaaaaaaaaaaaaaaaaaaaaaaaaaaaaa" : String).length = 32 ∧
    (YamahaMusicCastSystem.setNetworkName "aaaaaaaaaaaaaaaaaaaaaaaaaaaaaaaaa" =
       .localReject
         (.localError "The network name must not be longer than 32 characters.") ∧
     (YamahaMusicCastSystem.setNetworkName
        "aaaaaaaaaaaaaaaaaaaaaaaaaaaaaaaaa").issuesNetworkCall = false ∧
     (YamahaMusicCastSystem.setNetworkName
        "aaaaaaaaaaaaaaaaaaaaaaaaaaaaaaaa").issuesNetworkCall = true) :=
  ⟨rfl, rfl,
   setNetworkName_length_validation "aaaaaaaaaaaaaaaaaaaaaaaaaaaaaaaaa"
     "aaaaaaaaaaaaaaaaaaaaaaaaaaaaaaaa" rfl rfl⟩

/-- C5: for every parser and every datagram text the parser accepts, the
`message` handler emits exactly one `message` event carrying the sender
information and the parsed JSON value. -/
theorem onMessage_emits_parsed_json (parse : String → Except ParseError Json)
    (msg : String) (rinfo : RemoteInfo) (json : Json)
    (h : parse msg = .ok json) :
    YamahaMusicCast.onMessage parse msg rinfo = .ok [.message rinfo json] := by
  simp [YamahaMusicCast.onMessage, h]

/-- Witness for C5: the concrete datagram text holding the JSON object with
field `a` mapped to `1` produces a `message` event with the parsed object. -/
theorem onMessage_emits_parsed_json_witness :
    jsonParse "\x7b\"a\":1\x7d" = .ok (.obj [("a", .num 1)]) ∧
    YamahaMusicCast.onMessage jsonParse "\x7b\"a\":1\x7d" exampleRinfo =
      .ok [.message exampleRinfo (.obj [("a", .num 1)])] :=
  ⟨rfl, onMessage_emits_parsed_json jsonParse "\x7b\"a\":1\x7d" exampleRinfo
    (.obj [("a", .num 1)]) rfl⟩

/-- C6: calling `setupEventReceiver` on a state whose socket is open closes
the prior socket, drops the reference to it, and installs a fresh socket with
handlers wired and bound to the given port; the call itself succeeds (no
close error arises from an open socket). -/
theorem setupEventReceiver_rebind_closes_prior (self : YamahaMusicCast)
    (s : UdpSocket) (port : Nat)
    (hs : self.server = some s) (hopen : s.closed = false) :
    YamahaMusicCast.setupEventReceiver self port =
      .ok (some { s with closed := true },
           { self with server := some (freshSocketWiredAndBound port) }) ∧
    ({ s with closed := true } : UdpSocket).closed = true ∧
    (freshSocketWiredAndBound port).closed = false ∧
    (freshSocketWiredAndBound port).handlersWired = true ∧
    (freshSocketWiredAndBound port).boundPort = some port := by
  refine ⟨?_, rfl, rfl, rfl, rfl⟩
  simp [YamahaMusicCast.setupEventReceiver, hs, UdpSocket.close, hopen]

/-- Witness for C6: rebinding the concrete freshly-set-up facade from port
50001 to port 50002. -/
theorem setupEventReceiver_rebind_closes_prior_witness :
    exampleFacade.server = some (freshSocketWiredAndBound 50001) ∧
    (freshSocketWiredAndBound 50001).closed = false ∧
    (YamahaMusicCast.setupEventReceiver exampleFacade 50002 =
       .ok (some { freshSocketWiredAndBound 50001 with closed := true },
            { exampleFacade with server := some (freshSocketWiredAndBound 50002) }) ∧
     ({ freshSocketWiredAndBound 50001 with closed := true } : UdpSocket).closed = true ∧
     (freshSocketWiredAndBound 50002).closed = false ∧
     (freshSocketWiredAndBound 50002).handlersWired = true ∧
     (freshSocketWiredAndBound 50002).boundPort = some 50002) :=
  ⟨rfl, rfl,
   setupEventReceiver_rebind_closes_prior exampleFacade
     (freshSocketWiredAndBound 50001) 50002 rfl rfl⟩

/-- C7: when the socket raises a fault, the handler emits exactly one `error`
event carrying the fault and closes the socket; the resulting state still
holds the same (now closed) socket — no new socket is created and the bound
port is not re-bound, so the receiver stays closed until `setupEventReceiver`
is called again. -/
theorem onSocketError_emits_and_closes (self : YamahaMusicCast)
    (s : UdpSocket) (e : SocketFault)
    (hs : self.server = some s) (hopen : s.closed = false) :
    YamahaMusicCast.onSocketError self e =
      .ok ([.error e], { self with server := some { s with closed := true } }) ∧
    ({ s with closed := true } : UdpSocket).closed = true ∧
    ({ s with closed := true } : UdpSocket).boundPort = s.boundPort ∧
    ({ s with closed := true } : UdpSocket).handlersWired = s.handlersWired := by
  refine ⟨?_, rfl, rfl, rfl⟩
  simp [YamahaMusicCast.onSocketError, hs, UdpSocket.close, hopen]

/-- Witness for C7: an address-in-use fault on the concrete freshly-set-up
facade. -/
theorem onSocketError_emits_and_closes_witness :
    exampleFacade.server = some (freshSocketWiredAndBound 50001) ∧
    (freshSocketWiredAndBound 50001).closed = false ∧
    (YamahaMusicCast.onSocketError exampleFacade .addressInUse =
       .ok ([.error .addressInUse],
            { exampleFacade with
                server := some { freshSocketWiredAndBound 50001 with closed := true } }) ∧
     ({ freshSocketWiredAndBound 50001 with closed := true } : UdpSocket).closed = true ∧
     ({ freshSocketWiredAndBound 50001 with closed := true } : UdpSocket).boundPort =
       (freshSocketWiredAndBound 50001).boundPort ∧
     ({ freshSocketWiredAndBound 50001 with closed := true } : UdpSocket).handlersWired =
       (freshSocketWiredAndBound 50001).handlersWired) :=
  ⟨rfl, rfl,
   onSocketError_emits_and_closes exampleFacade (freshSocketWiredAndBound 50001)
     .addressInUse rfl rfl⟩

/-- C8: a datagram text the parser refuses makes the `message` handler
propagate the parse exception uncaught: the handler's outcome is the error
and no event list is produced. -/
theorem onMessage_parse_failure_uncaught (parse : String → Except ParseError Json)
    (msg : String) (rinfo : RemoteInfo) (e : ParseError)
    (h : parse msg = .error e) :
    YamahaMusicCast.onMessage parse msg rinfo = .error e ∧
    ∀ events, YamahaMusicCast.onMessage parse msg rinfo ≠ .ok events := by
  refine ⟨?_, ?_⟩ <;> simp [YamahaMusicCast.onMessage, h]

/-- Witness for C8: the concrete non-JSON datagram text `hello` makes the
handler throw `SyntaxError` and emit nothing. -/
theorem onMessage_parse_failure_uncaught_witness :
    jsonParse "hello" = .error .syntaxError ∧
    (YamahaMusicCast.onMessage jsonParse "hello" exampleRinfo = .error .syntaxError ∧
     ∀ events, YamahaMusicCast.onMessage jsonParse "hello" exampleRinfo ≠ .ok events) :=
  ⟨rfl, onMessage_parse_failure_uncaught jsonParse "hello" exampleRinfo .syntaxError rfl⟩

/-- C9: assigning the facade's `ip` (resp. `eventPort`) property updates only
that stored field; the six subsystem clients (hence their base URLs) and the
server socket (hence its bound port) are unchanged by either assignment. -/
theorem setters_update_only_field (self : YamahaMusicCast) (v : String) (p : Nat) :
    (self.setIp v).ip = v ∧
    (self.setIp v).eventPort = self.eventPort ∧
    (self.setIp v).server = self.server ∧
    (self.setIp v).system = self.system ∧
    (self.setIp v).zone = self.zone ∧
    (self.setIp v).tuner = self.tuner ∧
    (self.setIp v).netusb = self.netusb ∧
    (self.setIp v).cd = self.cd ∧
    (self.setIp v).clock = self.clock ∧
    (self.setIp v).system.axiosInstance.baseURL = self.system.axiosInstance.baseURL ∧
    (self.setEventPort p).eventPort = p ∧
    (self.setEventPort p).ip = self.ip ∧
    (self.setEventPort p).server = self.server ∧
    (self.setEventPort p).system = self.system ∧
    (self.setEventPort p).zone = self.zone ∧
    (self.setEventPort p).tuner = self.tuner ∧
    (self.setEventPort p).netusb = self.netusb ∧
    (self.setEventPort p).cd = self.cd ∧
    (self.setEventPort p).clock = self.clock ∧
    (self.setEventPort p).system.axiosInstance.appPort = self.system.axiosInstance.appPort := by
  simp [YamahaMusicCast.setIp, YamahaMusicCast.setEventPort]

/-- C10: the constructor's defaulted event port is `50001` — not the `41100`
mentioned by the per-client source comments — and a facade set up with the
default reports it via the `eventPort` getter, binds the receiver socket to
it, and passes it to the clients as the `X-AppPort` header value. -/
theorem default_event_port_is_50001 (ip : String) :
    YamahaMusicCast.defaultEventPort = 50001 ∧
    YamahaMusicCast.defaultEventPort ≠ 41100 ∧
    (YamahaMusicCast.setup ip YamahaMusicCast.defaultEventPort).eventPort = 50001 ∧
    (YamahaMusicCast.setup ip YamahaMusicCast.defaultEventPort).server =
      some (freshSocketWiredAndBound 50001) ∧
    (YamahaMusicCast.setup ip
      YamahaMusicCast.defaultEventPort).system.axiosInstance.appPort = 50001 :=
  ⟨rfl, by decide, rfl, rfl, rfl⟩
